import Mathlib

/-!
Shallow embedding of the Polly-API Python client (`src/client.py`).

The client talks to an HTTP server through the `requests` library.  We model
the transport as a function from the request the client builds to an outcome:
either an HTTP response (any status, headers, and body) or a request-level
failure (`requests.exceptions.RequestException` with no response: DNS failure,
connection refused, timeout).  The response body is modelled post-decoding as
`Except String Json`: `response.json()` either yields a JSON value or raises a
decode error (which in `requests` is a subclass of `RequestException`).

Python exceptions that the client code does NOT catch (`ValueError` from
`int(...)`, `TypeError` from `len(...)`) are modelled as the `Except.error`
branch of each operation's result; exceptions the client catches and converts
are part of the ordinary `.ok` result value.
-/

/-- JSON values, as returned by `response.json()`. -/
inductive Json where
  | null
  | bool (b : Bool)
  | int (n : Int)
  | str (s : String)
  | arr (elems : List Json)
  | obj (fields : List (String × Json))

/-- Python exceptions that escape the client's `try/except` blocks. -/
inductive PyError where
  | valueError (msg : String)
  | typeError (msg : String)
deriving DecidableEq

/-- Python `len(x)` on a decoded JSON value: defined for sized containers
(`list`, `dict`, `str`), raises `TypeError` otherwise. -/
def pyLen : Json → Except PyError Nat
  | Json.arr xs => Except.ok xs.length
  | Json.obj kvs => Except.ok kvs.length
  | Json.str s => Except.ok s.length
  | _ => Except.error (PyError.typeError "object has no len()")

/-- ASCII whitespace stripped by Python's `int(str)` conversion. -/
def isSpaceChar (c : Char) : Bool :=
  c == ' ' || c == '\t' || c == '\n' || c == '\r' || c == '\x0b' || c == '\x0c'

/-- Drop leading whitespace from a character list. -/
def dropSpaces : List Char → List Char
  | [] => []
  | c :: cs => if isSpaceChar c then dropSpaces cs else c :: cs

/-- Value of a (non-empty, all-digit) decimal digit list. -/
def digitsToNat (cs : List Char) : Nat :=
  cs.foldl (fun acc c => 10 * acc + (c.toNat - 48)) 0

/-- Python `int(s)` on a string: strips surrounding whitespace, then an
optional sign followed by one or more decimal digits; any other shape raises
`ValueError` (returned as `none` here). -/
def pyIntOfString (s : String) : Option Int :=
  match dropSpaces (dropSpaces s.data.reverse).reverse with
  | [] => none
  | c :: cs =>
      if c == '-' then
        if cs ≠ [] ∧ cs.all Char.isDigit then some (-(digitsToNat cs : Int)) else none
      else if c == '+' then
        if cs ≠ [] ∧ cs.all Char.isDigit then some ((digitsToNat cs : Int)) else none
      else
        if (c :: cs).all Char.isDigit then some ((digitsToNat (c :: cs) : Int)) else none

/-- ASCII lowercasing of a string (header names are ASCII). -/
def lowerStr (s : String) : String :=
  String.mk (s.data.map Char.toLower)

/-- Case-insensitive header lookup (`requests` stores response headers in a
case-insensitive dict). -/
def getHeader (hs : List (String × String)) (name : String) : Option String :=
  (hs.find? (fun kv => lowerStr kv.1 == lowerStr name)).map (fun kv => kv.2)

/-- An HTTP response as seen by the client: status, reason phrase, headers,
and the result of decoding the body as JSON. -/
structure HttpResponse where
  status : Nat
  reason : String
  headers : List (String × String)
  body : Except String Json

/-- The request a client operation hands to the transport. -/
structure Request where
  method : String
  url : String
  params : List (String × Int)
  payload : Option Json
  headers : List (String × String)

/-- Outcome of handing a request to the transport: a response (of any
status), or a `RequestException` with no response. -/
inductive Outcome where
  | resp (r : HttpResponse)
  | reqError (msg : String)

/-- The transport layer (the `requests` session, mockable in tests). -/
def Transport : Type := Request → Outcome

/-- `str(http_err)` for the `HTTPError` raised by
`Response.raise_for_status`: requests formats 4xx as `Client Error` and 5xx
as `Server Error`. -/
def httpErrStr (status : Nat) (reason url : String) : String :=
  if status < 500 then
    toString status ++ " Client Error: " ++ reason ++ " for url: " ++ url
  else
    toString status ++ " Server Error: " ++ reason ++ " for url: " ++ url

/-- `Response.raise_for_status` raises `HTTPError` exactly for statuses in
400–599. -/
def isErrorStatus (status : Nat) : Prop := 400 ≤ status ∧ status < 600

instance (status : Nat) : Decidable (isErrorStatus status) := by
  unfold isErrorStatus; infer_instance

/-- Client-side session state: the `auth` global, a `ClientAuth` dataclass
holding an optional bearer token. -/
structure ClientState where
  token : Option String
deriving DecidableEq

/-- Python truthiness of `auth.token` (an `Optional[str]`): `None` and the
empty string are falsy. -/
def pyTruthy : Option String → Bool
  | none => false
  | some s => !s.isEmpty

def BASE_URL : String := "http://localhost:8000"

/-- `ClientAuth.get_headers`: content type always, bearer header when the
token is (truthily) set. -/
def get_headers (st : ClientState) : List (String × String) :=
  let headers := [("Content-Type", "application/json")]
  match st.token with
  | some tok => if tok.isEmpty then headers else headers ++ [("Authorization", "Bearer " ++ tok)]
  | none => headers

/-- The `data` field of a result dict: either decoded JSON or an error
message string. -/
inductive RData where
  | json (j : Json)
  | str (s : String)

/-- The uniform `{success, data}` result dict of `register_user`,
`vote_on_poll` and `get_poll_results`. -/
structure ApiResult where
  success : Bool
  data : RData

/-- The result dict of `get_polls` (`PollsResponse` in the source). -/
structure PollsResponse where
  success : Bool
  data : RData
  total : Int
  skip : Int
  limit : Int

/-- Observable effect of one client call: the value returned (or the Python
exception that escaped), the session state afterwards, and the list of
requests handed to the transport. -/
structure CallResult (α : Type) where
  result : Except PyError α
  state : ClientState
  requests : List Request

/-- The request `register_user` builds: POST `/register` with the JSON
payload, no explicit headers (it does not pass `auth.get_headers()`). -/
def register_request (username password : String) : Request :=
  { method := "POST"
    url := BASE_URL ++ "/register"
    params := []
    payload := some (Json.obj [("username", Json.str username), ("password", Json.str password)])
    headers := [] }

/-- `register_user` from `src/client.py`: POSTs to `/register`, converts the
outcome to a `{success, data}` dict.  400 is mapped to the fixed duplicate
username message; other statuses raised by `raise_for_status` (400–599) to a
generic HTTP-error message; `RequestException` (including a JSON decode
failure of a success body) to a generic request-error message. -/
def register_user (st : ClientState) (username password : String) (t : Transport) :
    CallResult ApiResult :=
  let url := BASE_URL ++ "/register"
  let req := register_request username password
  let result : Except PyError ApiResult :=
    match t req with
    | Outcome.reqError msg =>
        Except.ok ⟨false, RData.str ("Request error occurred: " ++ msg)⟩
    | Outcome.resp r =>
        if isErrorStatus r.status then
          if r.status = 400 then
            Except.ok ⟨false, RData.str "Username already registered"⟩
          else
            Except.ok ⟨false, RData.str ("HTTP error occurred: " ++ httpErrStr r.status r.reason url)⟩
        else
          match r.body with
          | Except.ok j => Except.ok ⟨true, RData.json j⟩
          | Except.error e => Except.ok ⟨false, RData.str ("Request error occurred: " ++ e)⟩
  ⟨result, st, [req]⟩

/-- The request `vote_on_poll` builds once the local auth check passed:
POST `/polls/{poll_id}/vote` with `{option_id}` and `auth.get_headers()`. -/
def vote_request (st : ClientState) (poll_id option_id : Int) : Request :=
  { method := "POST"
    url := BASE_URL ++ "/polls/" ++ toString poll_id ++ "/vote"
    params := []
    payload := some (Json.obj [("option_id", Json.int option_id)])
    headers := get_headers st }

/-- `vote_on_poll` from `src/client.py`: fails locally (no request made) when
`auth.token` is falsy; otherwise POSTs the vote and maps 401/404/other
error statuses and request errors to messages. -/
def vote_on_poll (st : ClientState) (poll_id option_id : Int) (t : Transport) :
    CallResult ApiResult :=
  if !pyTruthy st.token then
    ⟨Except.ok ⟨false, RData.str "Authentication required. Please log in first."⟩, st, []⟩
  else
    let url := BASE_URL ++ "/polls/" ++ toString poll_id ++ "/vote"
    let req := vote_request st poll_id option_id
    let result : Except PyError ApiResult :=
      match t req with
      | Outcome.reqError msg =>
          Except.ok ⟨false, RData.str ("Request error occurred: " ++ msg)⟩
      | Outcome.resp r =>
          if isErrorStatus r.status then
            if r.status = 401 then
              Except.ok ⟨false, RData.str "Unauthorized. Please check your authentication."⟩
            else if r.status = 404 then
              Except.ok ⟨false, RData.str "Poll or option not found."⟩
            else
              Except.ok ⟨false, RData.str ("HTTP error occurred: " ++ httpErrStr r.status r.reason url)⟩
          else
            match r.body with
            | Except.ok j => Except.ok ⟨true, RData.json j⟩
            | Except.error e => Except.ok ⟨false, RData.str ("Request error occurred: " ++ e)⟩
    ⟨result, st, [req]⟩

/-- The request `get_poll_results` builds: GET `/polls/{poll_id}/results`
with `auth.get_headers()`. -/
def results_request (st : ClientState) (poll_id : Int) : Request :=
  { method := "GET"
    url := BASE_URL ++ "/polls/" ++ toString poll_id ++ "/results"
    params := []
    payload := none
    headers := get_headers st }

/-- `get_poll_results` from `src/client.py`: GETs the results (no local auth
precondition), maps 404 to "Poll not found.", other error statuses and
request errors to generic messages. -/
def get_poll_results (st : ClientState) (poll_id : Int) (t : Transport) :
    CallResult ApiResult :=
  let url := BASE_URL ++ "/polls/" ++ toString poll_id ++ "/results"
  let req := results_request st poll_id
  let result : Except PyError ApiResult :=
    match t req with
    | Outcome.reqError msg =>
        Except.ok ⟨false, RData.str ("Request error occurred: " ++ msg)⟩
    | Outcome.resp r =>
        if isErrorStatus r.status then
          if r.status = 404 then
            Except.ok ⟨false, RData.str "Poll not found."⟩
          else
            Except.ok ⟨false, RData.str ("HTTP error occurred: " ++ httpErrStr r.status r.reason url)⟩
        else
          match r.body with
          | Except.ok j => Except.ok ⟨true, RData.json j⟩
          | Except.error e => Except.ok ⟨false, RData.str ("Request error occurred: " ++ e)⟩
  ⟨result, st, [req]⟩

/-- The request `get_polls` builds: GET `/polls` with the clamped pagination
query parameters and `auth.get_headers()`. -/
def polls_request (st : ClientState) (skip limit : Int) : Request :=
  { method := "GET"
    url := BASE_URL ++ "/polls"
    params := [("skip", max 0 skip), ("limit", max 1 (min 100 limit))]
    payload := none
    headers := get_headers st }

/-- `get_polls` from `src/client.py`.  On a success status it computes
`int(response.headers.get('x-total-count', len(polls_data)))`: Python
evaluates the default `len(polls_data)` first (raising `TypeError` for an
unsized body), then, when the header is present, applies `int` to the header
string — which raises `ValueError` when the string is not an integer
literal.  Neither exception is caught by the function's `except` clauses, so
both appear as `Except.error`. -/
def get_polls (st : ClientState) (skip limit : Int) (t : Transport) :
    CallResult PollsResponse :=
  let url := BASE_URL ++ "/polls"
  let skipC : Int := max 0 skip
  let limitC : Int := max 1 (min 100 limit)
  let req := polls_request st skip limit
  let result : Except PyError PollsResponse :=
    match t req with
    | Outcome.reqError msg =>
        Except.ok ⟨false, RData.str ("Request error occurred: " ++ msg), 0, skipC, limitC⟩
    | Outcome.resp r =>
        if isErrorStatus r.status then
          Except.ok ⟨false, RData.str ("HTTP error occurred: " ++ httpErrStr r.status r.reason url),
            0, skipC, limitC⟩
        else
          match r.body with
          | Except.error e =>
              Except.ok ⟨false, RData.str ("Request error occurred: " ++ e), 0, skipC, limitC⟩
          | Except.ok pollsData =>
              match pyLen pollsData with
              | Except.error pe => Except.error pe
              | Except.ok defLen =>
                  match getHeader r.headers "x-total-count" with
                  | none =>
                      Except.ok ⟨true, RData.json pollsData, (defLen : Int), skipC, limitC⟩
                  | some s =>
                      match pyIntOfString s with
                      | some v => Except.ok ⟨true, RData.json pollsData, v, skipC, limitC⟩
                      | none =>
                          Except.error (PyError.valueError
                            ("invalid literal for int() with base 10: " ++ s))
  ⟨result, st, [req]⟩

/-!
Module-level evaluation order (claim C2).  A Python module executes its
top-level statements in source order; a statement that references a name not
yet bound raises `NameError`.  Each statement is recorded with its source
line, the names it binds, and the names it references at evaluation time
(for `class`/`def` statements: decorators, base classes, annotations and
defaults — bodies of functions are not executed at definition time).
-/

/-- One top-level statement of `src/client.py`. -/
structure Stmt where
  line : Nat
  binds : List String
  refs : List String

/-- Names bound before the module body runs (Python builtins used by the
module). -/
def pyBuiltins : List String :=
  ["int", "str", "bool", "len", "max", "min", "print", "enumerate", "__name__"]

/-- The top-level statements of `src/client.py` in source order. -/
def clientModule : List Stmt :=
  [ ⟨1, ["requests"], []⟩,
    ⟨2, ["Dict", "List", "Optional", "Union", "TypedDict", "Literal", "Any"], []⟩,
    ⟨3, ["datetime"], []⟩,
    ⟨4, ["dataclass"], []⟩,
    ⟨7, ["BASE_URL"], []⟩,
    ⟨10, ["auth"], ["ClientAuth"]⟩,
    ⟨13, ["OptionOut"], ["TypedDict", "int", "str"]⟩,
    ⟨18, ["PollOut"], ["TypedDict", "int", "str", "List", "OptionOut"]⟩,
    ⟨25, ["PollsResponse"], ["TypedDict", "bool", "Union", "List", "PollOut", "str", "Optional", "int"]⟩,
    ⟨32, ["PollResults"], ["TypedDict", "int", "str", "List", "Dict", "Any"]⟩,
    ⟨37, ["ClientAuth"], ["dataclass", "Optional", "str", "Dict"]⟩,
    ⟨49, ["register_user"], ["str", "Dict", "Union", "bool"]⟩,
    ⟨93, ["vote_on_poll"], ["int", "Dict", "Union", "bool", "str"]⟩,
    ⟨149, ["get_poll_results"], ["int", "Dict", "Union", "bool", "PollResults", "str"]⟩,
    ⟨188, ["get_polls"], ["int", "PollsResponse"]⟩,
    ⟨242, [], ["__name__"]⟩ ]

/-- Run the module's top-level statements in order, threading the
environment of bound names; the first unresolved reference raises
`NameError`. -/
def evalStmts : List Stmt → List String → Except String (List String)
  | [], env => Except.ok env
  | s :: rest, env =>
      match s.refs.find? (fun r => !env.contains r) with
      | some r =>
          Except.error ("NameError: name " ++ r ++ " is not defined (line " ++ toString s.line ++ ")")
      | none => evalStmts rest (env ++ s.binds)

/-!  Theorems settling the claims.  -/

/-- C2: the claim states that evaluating the module's top-level definitions
in order succeeds and that `auth = ClientAuth()` refers only to names already
defined.  In the source, line 10 `auth = ClientAuth()` precedes the
definition of `ClientAuth` at line 37, so importing the module raises
`NameError`. -/
theorem module_toplevel_eval_name_error :
    evalStmts clientModule pyBuiltins =
      Except.error "NameError: name ClientAuth is not defined (line 10)" := by
  rfl

/-- C3: the query parameters actually sent by `get_polls` are the clamped
values: skip < 0 becomes 0, limit > 100 becomes 100, limit < 1 becomes 1,
and in-range values pass through unchanged. -/
theorem get_polls_sends_clamped_params
    (st : ClientState) (skip limit : Int) (t : Transport) :
    (get_polls st skip limit t).requests.map Request.params =
      [[("skip", if skip < 0 then 0 else skip),
        ("limit", if 100 < limit then (100 : Int) else if limit < 1 then 1 else limit)]] := by
  simp only [get_polls, polls_request, List.map]
  refine congrArg (fun x => [x]) ?_
  refine congrArg₂ (fun a b => [("skip", a), ("limit", b)]) ?_ ?_
  · split <;> omega
  · split
    · omega
    · split <;> omega

/-- C9: `register_user` never touches the session state: the token after the
call equals the token before, for every input and transport outcome. -/
theorem register_user_preserves_session
    (st : ClientState) (username password : String) (t : Transport) :
    (register_user st username password t).state = st := rfl

/-- C10: `get_poll_results` is deterministic and mutation-free: two
consecutive calls against the same transport return identical results, and
neither call changes client-side state. -/
theorem get_poll_results_idempotent_pure
    (st : ClientState) (poll_id : Int) (t : Transport) :
    (get_poll_results st poll_id t).result =
        (get_poll_results (get_poll_results st poll_id t).state poll_id t).result ∧
      (get_poll_results st poll_id t).state = st ∧
      (get_poll_results (get_poll_results st poll_id t).state poll_id t).state = st :=
  ⟨rfl, rfl, rfl⟩

/-- C5: when no session token is set, `vote_on_poll` fails with exactly the
authentication message and hands no request to the transport. -/
theorem vote_requires_auth_no_request
    (st : ClientState) (poll_id option_id : Int) (t : Transport)
    (h : st.token = none) :
    (vote_on_poll st poll_id option_id t).result =
        Except.ok ⟨false, RData.str "Authentication required. Please log in first."⟩ ∧
      (vote_on_poll st poll_id option_id t).requests = [] := by
  obtain ⟨tok⟩ := st
  simp only [ClientState.token] at h
  subst h
  exact ⟨rfl, rfl⟩

/-- Witness for C5 at a concrete unauthenticated state. -/
theorem vote_requires_auth_no_request_witness :
    (vote_on_poll ⟨none⟩ 7 3 (fun _ => Outcome.reqError "down")).result =
        Except.ok ⟨false, RData.str "Authentication required. Please log in first."⟩ ∧
      (vote_on_poll ⟨none⟩ 7 3 (fun _ => Outcome.reqError "down")).requests = [] :=
  vote_requires_auth_no_request ⟨none⟩ 7 3 (fun _ => Outcome.reqError "down") rfl

/-- C4: whenever the transport fails (no response, or a response whose
status `raise_for_status` rejects), the `get_polls` result is a failure
carrying `total = 0` and the clamped skip/limit, never the raw inputs. -/
theorem get_polls_failure_carries_clamped_and_zero_total
    (st : ClientState) (skip limit : Int) (t : Transport)
    (h : ∀ req r, t req = Outcome.resp r → isErrorStatus r.status) :
    ∃ msg, (get_polls st skip limit t).result =
      Except.ok ⟨false, RData.str msg, 0, max 0 skip, max 1 (min 100 limit)⟩ := by
  unfold get_polls
  cases hres : t (polls_request st skip limit) with
  | reqError m => exact ⟨"Request error occurred: " ++ m, by simp [hres]⟩
  | resp r =>
      have herr := h _ r hres
      exact ⟨"HTTP error occurred: " ++ httpErrStr r.status r.reason (BASE_URL ++ "/polls"),
        by simp [hres, if_pos herr]⟩

/-- Witness for C4: a transport failure with raw skip = -3, limit = 250
yields a failure result carrying skip = 0, limit = 100, total = 0. -/
theorem get_polls_failure_witness :
    ∃ msg, (get_polls ⟨none⟩ (-3) 250 (fun _ => Outcome.reqError "conn refused")).result =
      Except.ok ⟨false, RData.str msg, 0, 0, 100⟩ :=
  get_polls_failure_carries_clamped_and_zero_total ⟨none⟩ (-3) 250
    (fun _ => Outcome.reqError "conn refused")
    (fun _ _ hre => Outcome.noConfusion hre)

/-- A transport whose response carries a non-numeric total-count header
(claim C1). -/
def malformedHeaderTransport : Transport := fun _ =>
  Outcome.resp ⟨200, "OK", [("X-Total-Count", "abc")], Except.ok (Json.arr [])⟩

/-- C1: the claim states every call returns a result value, in particular
`get_polls` when the total-count header is present but not a well-formed
integer.  The code instead raises an uncaught `ValueError` at
`int(response.headers.get('x-total-count', ...))`. -/
theorem get_polls_malformed_total_header_escapes :
    (get_polls ⟨none⟩ 0 5 malformedHeaderTransport).result =
      Except.error (PyError.valueError "invalid literal for int() with base 10: abc") := by
  rfl

/-- A transport answering 304 Not Modified, a non-2xx status that
`raise_for_status` does not treat as an error (claim C6). -/
def status304Transport : Transport := fun _ =>
  Outcome.resp ⟨304, "Not Modified", [], Except.ok (Json.obj [])⟩

/-- Counterexample to C6 as stated: status 304 is non-2xx, yet
`register_user` returns success, not a generic HTTP-error failure, because
`raise_for_status` only raises for 400-599. -/
theorem register_non2xx_304_is_success :
    (register_user ⟨none⟩ "alice" "pw" status304Transport).result =
      Except.ok ⟨true, RData.json (Json.obj [])⟩ := by
  rfl

/-- C6 amended: on a 400 response `register_user` fails with exactly
"Username already registered" regardless of the response body; on any other
status in 400-599 it fails with the generic HTTP-error message embedding the
status detail.  (Non-2xx statuses outside 400-599 follow the success
path.) -/
theorem register_error_mapping_amended
    (st : ClientState) (username password : String) (t : Transport) (r : HttpResponse)
    (hresp : t (register_request username password) = Outcome.resp r)
    (herr : isErrorStatus r.status) :
    (register_user st username password t).result =
      Except.ok ⟨false, RData.str
        (if r.status = 400 then "Username already registered"
         else "HTTP error occurred: " ++ httpErrStr r.status r.reason (BASE_URL ++ "/register"))⟩ := by
  simp only [register_user, hresp, if_pos herr]
  by_cases h4 : r.status = 400 <;> simp [h4]

/-- A transport answering 400 Bad Request with an undecodable body
(claim C6 witness). -/
def status400Transport : Transport := fun _ =>
  Outcome.resp ⟨400, "Bad Request", [], Except.error "no json"⟩

/-- Witness for amended C6: a 400 response whose body does not even decode
still yields exactly "Username already registered". -/
theorem register_error_mapping_witness :
    (register_user ⟨none⟩ "bob" "pw" status400Transport).result =
      Except.ok ⟨false, RData.str "Username already registered"⟩ :=
  register_error_mapping_amended ⟨none⟩ "bob" "pw" status400Transport
    ⟨400, "Bad Request", [], Except.error "no json"⟩ rfl (by decide)

/-- A transport answering 303 See Other, a non-2xx status that
`raise_for_status` does not treat as an error (claim C7). -/
def status303Transport : Transport := fun _ =>
  Outcome.resp ⟨303, "See Other", [], Except.ok Json.null⟩

/-- Counterexample to C7 as stated: an authenticated `vote_on_poll` that
receives status 303 — a non-2xx status — returns success rather than the
generic HTTP-error failure, because `raise_for_status` only raises for
400-599. -/
theorem vote_non2xx_303_is_success :
    (vote_on_poll ⟨some "tok"⟩ 1 2 status303Transport).result =
      Except.ok ⟨true, RData.json Json.null⟩ := by
  rfl

/-- C7 amended: for an authenticated `vote_on_poll`, a response with status
in 400-599 maps 401 to "Unauthorized. Please check your authentication.",
404 to "Poll or option not found.", and any other such status to the generic
HTTP-error message; for `get_poll_results`, 404 maps to "Poll not found."
and other 400-599 statuses to the generic message; for both, no response
maps to the generic request-error message.  (Non-2xx statuses outside
400-599 follow the success path.) -/
theorem vote_results_error_mapping_amended
    (st : ClientState) (poll_id option_id : Int) (t : Transport)
    (r : HttpResponse) (msg : String) :
    ((pyTruthy st.token = true →
        t (vote_request st poll_id option_id) = Outcome.resp r → isErrorStatus r.status →
        (vote_on_poll st poll_id option_id t).result = Except.ok ⟨false, RData.str
          (if r.status = 401 then "Unauthorized. Please check your authentication."
           else if r.status = 404 then "Poll or option not found."
           else "HTTP error occurred: " ++
             httpErrStr r.status r.reason
               (BASE_URL ++ "/polls/" ++ toString poll_id ++ "/vote"))⟩) ∧
      (pyTruthy st.token = true →
        t (vote_request st poll_id option_id) = Outcome.reqError msg →
        (vote_on_poll st poll_id option_id t).result =
          Except.ok ⟨false, RData.str ("Request error occurred: " ++ msg)⟩) ∧
      (t (results_request st poll_id) = Outcome.resp r → isErrorStatus r.status →
        (get_poll_results st poll_id t).result = Except.ok ⟨false, RData.str
          (if r.status = 404 then "Poll not found."
           else "HTTP error occurred: " ++
             httpErrStr r.status r.reason
               (BASE_URL ++ "/polls/" ++ toString poll_id ++ "/results"))⟩) ∧
      (t (results_request st poll_id) = Outcome.reqError msg →
        (get_poll_results st poll_id t).result =
          Except.ok ⟨false, RData.str ("Request error occurred: " ++ msg)⟩)) := by
  refine ⟨?_, ?_, ?_, ?_⟩
  · intro htok hresp herr
    simp only [vote_on_poll, htok, Bool.not_true, Bool.false_eq_true, if_false, hresp,
      if_pos herr]
    by_cases h1 : r.status = 401 <;> by_cases h4 : r.status = 404 <;> simp [h1, h4]
  · intro htok hresp
    simp only [vote_on_poll, htok, Bool.not_true, Bool.false_eq_true, if_false, hresp]
  · intro hresp herr
    simp only [get_poll_results, hresp, if_pos herr]
    by_cases h4 : r.status = 404 <;> simp [h4]
  · intro hresp
    simp only [get_poll_results, hresp]

/-- A transport answering 401 Unauthorized (claim C7 witness). -/
def status401Transport : Transport := fun _ =>
  Outcome.resp ⟨401, "Unauthorized", [], Except.ok Json.null⟩

/-- Witness for amended C7 with an authenticated session and a transport
answering 401 to every request. -/
theorem vote_results_error_mapping_witness :
    ((pyTruthy (some "tok") = true →
        status401Transport (vote_request ⟨some "tok"⟩ 9 4) =
          Outcome.resp ⟨401, "Unauthorized", [], Except.ok Json.null⟩ →
        isErrorStatus 401 →
        (vote_on_poll ⟨some "tok"⟩ 9 4 status401Transport).result = Except.ok ⟨false, RData.str
          (if 401 = 401 then "Unauthorized. Please check your authentication."
           else if 401 = 404 then "Poll or option not found."
           else "HTTP error occurred: " ++
             httpErrStr 401 "Unauthorized"
               (BASE_URL ++ "/polls/" ++ toString (9 : Int) ++ "/vote"))⟩) ∧
      (pyTruthy (some "tok") = true →
        status401Transport (vote_request ⟨some "tok"⟩ 9 4) = Outcome.reqError "down" →
        (vote_on_poll ⟨some "tok"⟩ 9 4 status401Transport).result =
          Except.ok ⟨false, RData.str ("Request error occurred: " ++ "down")⟩) ∧
      (status401Transport (results_request ⟨some "tok"⟩ 9) =
          Outcome.resp ⟨401, "Unauthorized", [], Except.ok Json.null⟩ →
        isErrorStatus 401 →
        (get_poll_results ⟨some "tok"⟩ 9 status401Transport).result = Except.ok ⟨false, RData.str
          (if 401 = 404 then "Poll not found."
           else "HTTP error occurred: " ++
             httpErrStr 401 "Unauthorized"
               (BASE_URL ++ "/polls/" ++ toString (9 : Int) ++ "/results"))⟩) ∧
      (status401Transport (results_request ⟨some "tok"⟩ 9) = Outcome.reqError "down" →
        (get_poll_results ⟨some "tok"⟩ 9 status401Transport).result =
          Except.ok ⟨false, RData.str ("Request error occurred: " ++ "down")⟩)) :=
  vote_results_error_mapping_amended ⟨some "tok"⟩ 9 4 status401Transport
    ⟨401, "Unauthorized", [], Except.ok Json.null⟩ "down"

/-- A transport whose response carries a total-count header that is not an
integer literal (claim C8). -/
def malformedHeader2Transport : Transport := fun _ =>
  Outcome.resp ⟨200, "OK", [("x-total-count", "forty-two")],
    Except.ok (Json.arr [Json.null, Json.null, Json.null])⟩

/-- Counterexample to C8 as stated: with a present-but-malformed total-count
header, `total` does not default to the number of items in the page — the
call raises an uncaught `ValueError` instead of returning a result. -/
theorem get_polls_malformed_header_no_default :
    (get_polls ⟨some "tok"⟩ 0 3 malformedHeader2Transport).result =
      Except.error (PyError.valueError "invalid literal for int() with base 10: forty-two") := by
  rfl

/-- C8 amended: on a successful `get_polls` response, `total` is the
total-count header parsed as an integer when the header is present and
well-formed, and defaults to the number of items in the page when the header
is absent; the items are the decoded response body unchanged (original
order).  (A present-but-malformed header raises instead of defaulting.) -/
theorem get_polls_success_total_amended
    (st : ClientState) (skip limit : Int) (t : Transport) (r : HttpResponse)
    (j : Json) (n : Nat)
    (hresp : t (polls_request st skip limit) = Outcome.resp r)
    (hok : ¬ isErrorStatus r.status)
    (hbody : r.body = Except.ok j)
    (hlen : pyLen j = Except.ok n) :
    (∀ s v, getHeader r.headers "x-total-count" = some s → pyIntOfString s = some v →
        (get_polls st skip limit t).result =
          Except.ok ⟨true, RData.json j, v, max 0 skip, max 1 (min 100 limit)⟩) ∧
      (getHeader r.headers "x-total-count" = none →
        (get_polls st skip limit t).result =
          Except.ok ⟨true, RData.json j, (n : Int), max 0 skip, max 1 (min 100 limit)⟩) := by
  constructor
  · intro s v hs hv
    simp only [get_polls, hresp, if_neg hok, hbody, hlen, hs, hv]
  · intro hnone
    simp only [get_polls, hresp, if_neg hok, hbody, hlen, hnone]

/-- The success body of the C8 witness: five poll objects. -/
def fivePolls : Json :=
  Json.arr [Json.obj [("id", Json.int 1)], Json.obj [("id", Json.int 2)],
    Json.obj [("id", Json.int 3)], Json.obj [("id", Json.int 4)],
    Json.obj [("id", Json.int 5)]]

/-- A transport answering 200 with five polls and total-count header "42"
(claim C8 witness). -/
def header42Transport : Transport := fun _ =>
  Outcome.resp ⟨200, "OK", [("X-Total-Count", "42")], Except.ok fivePolls⟩

/-- Witness for amended C8: `get_polls(0, 5)` against five polls with header
"42" — the header branch applies with `s = "42"`, `v = 42`, and the
clamped skip/limit are 0 and 5. -/
theorem get_polls_success_total_witness :
    (∀ s v, getHeader [("X-Total-Count", "42")] "x-total-count" = some s →
        pyIntOfString s = some v →
        (get_polls ⟨none⟩ 0 5 header42Transport).result =
          Except.ok ⟨true, RData.json fivePolls, v, 0, 5⟩) ∧
      (getHeader [("X-Total-Count", "42")] "x-total-count" = none →
        (get_polls ⟨none⟩ 0 5 header42Transport).result =
          Except.ok ⟨true, RData.json fivePolls, (5 : Nat), 0, 5⟩) :=
  get_polls_success_total_amended ⟨none⟩ 0 5 header42Transport
    ⟨200, "OK", [("X-Total-Count", "42")], Except.ok fivePolls⟩ fivePolls 5
    rfl (by decide) rfl rfl
